import Mathlib

/-!
Verification development for the cross-chain arbitrage engine.

Shallow embedding of the engine's data model and operations:
pure TypeScript functions become Lean functions; network effects
(transaction submission, receipts, the bridge provider HTTP API) are
passed in explicitly as environment values; `bigint` becomes `ℤ`
(or `ℕ` where the source value is a non-negative chain word), and
JavaScript `number` arithmetic is modelled by exact rationals `ℚ`.
-/

/-- Tokens handled by the system (`'USDC' | 'USDT'` in the source). -/
inductive Token
  | USDC
  | USDT
deriving DecidableEq, BEq

/-- The two networks (`'avalanche' | 'sonic'`). -/
inductive Network
  | avalanche
  | sonic
deriving DecidableEq, BEq

/-- Arbitrage direction (`'avalanche-to-sonic' | 'sonic-to-avalanche'`). -/
inductive Direction
  | avalancheToSonic
  | sonicToAvalanche
deriving DecidableEq, BEq

/-- Execution step kind (`'swap' | 'bridge' | 'wait'`). -/
inductive StepType
  | swap
  | bridge
  | wait
deriving DecidableEq, BEq

/-- Execution step status (`'pending' | 'executing' | 'completed' | 'failed'`). -/
inductive StepStatus
  | pending
  | executing
  | completed
  | failed
deriving DecidableEq, BEq

/-- Machine-readable codes carried by `ArbitrageError` in the engine. -/
inductive ArbErrorCode
  | executionInProgress
  | quotesUnavailable
  | priceMovedAgainstUs
deriving DecidableEq, BEq

/-- The error taxonomy of the system, collapsed into one type: `SwapError`,
`BridgeError` and `ArbitrageError` (the latter with its code). -/
inductive EngineErr
  | swapErr (message : String)
  | bridgeErr (message : String)
  | arb (message : String) (code : ArbErrorCode)
deriving DecidableEq, BEq

/-- `ExecutionStep` of the engine.  The wall-clock `timestamp` field of the
source is omitted (it records `Date.now()` and carries no logic). -/
structure ExecutionStep where
  type : StepType
  network : Network
  description : String
  status : StepStatus
  txHash : Option ℕ := none
  actualGas : Option ℤ := none
deriving DecidableEq

/-- `ExecutionPlan` of the engine. -/
structure ExecutionPlan where
  steps : List ExecutionStep
  totalGasCost : ℤ
  totalBridgeCost : ℤ
  estimatedDuration : ℕ
  expectedProfit : ℤ
deriving DecidableEq

/-- `ArbitrageOpportunity`, restricted to the fields the engine reads:
direction, amount, the two pool prices used for re-validation, and the
pre-computed estimates copied into the plan. -/
structure ArbitrageOpportunity where
  id : ℕ
  direction : Direction
  amount : ℤ
  buyPoolPrice : ℤ
  sellPoolPrice : ℤ
  estimatedGasCost : ℤ
  grossProfit : ℤ
  netProfit : ℤ
deriving DecidableEq

/-- `ArbitrageExecutionResult` of the engine.  `executionTime` is wall-clock
(`Date.now()` differences) and is fixed to `0` in the model. -/
structure ArbitrageExecutionResult where
  opportunityId : ℕ
  success : Bool
  executionPlan : ExecutionPlan
  completedSteps : List ExecutionStep
  failedStep : Option ExecutionStep := none
  netProfit : ℤ
  totalGasCost : ℤ
  totalBridgeCost : ℤ
  executionTime : ℤ := 0
  transactions : List ℕ
  error : Option EngineErr := none
deriving DecidableEq

/-! ## ArbitrageCalculator (src/utils/calculations.ts) -/

/-- `ArbitrageCalculator.calculatePriceDifference`: prices are scaled down by
`10^decimals` and the relative difference `|p1 - p2| / min p1 p2` is returned.
The source computes in JavaScript `number`; modelled in exact `ℚ`. -/
def calculatePriceDifference (price1 price2 : ℤ) (decimals : ℕ) : ℚ :=
  let p1 : ℚ := (price1 : ℚ) / 10 ^ decimals
  let p2 : ℚ := (price2 : ℚ) / 10 ^ decimals
  |p1 - p2| / min p1 p2

/-- `ArbitrageCalculator.calculateNetProfit`:
`totalCosts = gas + bridge + slippage`; returns `gross - totalCosts` when
`gross > totalCosts`, else `0`. -/
def calculateNetProfit (grossProfit gasCosts bridgeCosts slippageCosts : ℤ) : ℤ :=
  let totalCosts := gasCosts + bridgeCosts + slippageCosts
  if grossProfit > totalCosts then grossProfit - totalCosts else 0

/-! ## DEX venue services (src/services/dex/pharaoh.ts, shadow service) -/

/-- A swap quote as produced by the two venue services (address fields and
the pool reference are dropped; they are copied from configuration). -/
structure SwapQuote where
  amountIn : ℤ
  amountOut : ℤ
  impact : ℚ
  gasEstimate : ℤ
  network : Network
deriving DecidableEq

/-- Venue price impact for stable pairs: deviation of `out/in` from 1 as a
percentage, capped at 1 (`PharaohDEXService.calculatePriceImpact`; the Shadow
service has the same body). -/
def calculatePriceImpact (amountIn amountOut : ℤ) : ℚ :=
  let r : ℚ := (amountOut : ℚ) / (amountIn : ℚ)
  min (|1 - r| * 100) 1

/-- Pharaoh quote output: `floor(amountIn * (1 - feeRate))` with
`feeRate = 0.0005` (source computes in JavaScript `number`; modelled
exactly in `ℚ`). -/
def pharaohQuoteAmountOut (amountIn : ℤ) : ℤ :=
  ⌊(amountIn : ℚ) * (1 - 5 / 10000)⌋

/-- Shadow quote output: `floor(amountIn * (1 - feeRate))` with
`feeRate = 0.0008`. -/
def shadowQuoteAmountOut (amountIn : ℤ) : ℤ :=
  ⌊(amountIn : ℚ) * (1 - 8 / 10000)⌋

/-- `PharaohDEXService.getSwapQuoteExactIn`: throws when `tokenIn = tokenOut`,
otherwise a deterministic stable-pair estimate (fee 0.05%, gas 872000). -/
def pharaohGetSwapQuoteExactIn (tokenIn tokenOut : Token) (amountIn : ℤ) :
    Except EngineErr SwapQuote :=
  if tokenIn = tokenOut then
    .error (.swapErr "Failed to get Pharaoh swap quote")
  else
    let amountOut := pharaohQuoteAmountOut amountIn
    .ok { amountIn, amountOut, impact := calculatePriceImpact amountIn amountOut,
          gasEstimate := 872000, network := .avalanche }

/-- `ShadowDEXService.getSwapQuoteExactIn`: fee 0.08%, gas 85000. -/
def shadowGetSwapQuoteExactIn (tokenIn tokenOut : Token) (amountIn : ℤ) :
    Except EngineErr SwapQuote :=
  if tokenIn = tokenOut then
    .error (.swapErr "Failed to get Shadow swap quote")
  else
    let amountOut := shadowQuoteAmountOut amountIn
    .ok { amountIn, amountOut, impact := calculatePriceImpact amountIn amountOut,
          gasEstimate := 85000, network := .sonic }

/-- A confirmed transaction receipt as observed by the swap execution code.
`onChainAmountOut` is the output amount the transaction actually produced
on chain; the source never reads it (only `gasUsed` is taken from the
receipt), and it is carried here to make that observable. -/
structure TxReceipt where
  txHash : ℕ
  gasUsed : ℤ
  onChainAmountOut : ℤ
deriving DecidableEq

/-- Environment of one swap execution: the outcome of the token-approval
round trip and the outcome of transaction submission + receipt wait. -/
structure SwapNetEnv where
  approval : Except EngineErr Unit
  tx : Except EngineErr TxReceipt

/-- What `executeSwapExactIn` returns: `{ txHash, amountOut, actualGasUsed }`. -/
structure SwapExecOut where
  txHash : ℕ
  amountOut : ℤ
  actualGasUsed : ℤ
deriving DecidableEq

/-- `PharaohDEXService.executeSwapExactIn`: ensure approval, take a fresh
deterministic quote, submit the swap, wait for the receipt; the reported
`amountOut` is the quote's output and `actualGasUsed` is the receipt's. -/
def pharaohExecuteSwapExactIn (env : SwapNetEnv) (tokenIn tokenOut : Token)
    (amountIn : ℤ) : Except EngineErr SwapExecOut :=
  match env.approval with
  | .error e => .error e
  | .ok _ =>
    match pharaohGetSwapQuoteExactIn tokenIn tokenOut amountIn with
    | .error e => .error e
    | .ok quote =>
      match env.tx with
      | .error e => .error e
      | .ok receipt =>
        .ok { txHash := receipt.txHash, amountOut := quote.amountOut,
              actualGasUsed := receipt.gasUsed }

/-- `ShadowDEXService.executeSwapExactIn` (same shape, Shadow quote). -/
def shadowExecuteSwapExactIn (env : SwapNetEnv) (tokenIn tokenOut : Token)
    (amountIn : ℤ) : Except EngineErr SwapExecOut :=
  match env.approval with
  | .error e => .error e
  | .ok _ =>
    match shadowGetSwapQuoteExactIn tokenIn tokenOut amountIn with
    | .error e => .error e
    | .ok quote =>
      match env.tx with
      | .error e => .error e
      | .ok receipt =>
        .ok { txHash := receipt.txHash, amountOut := quote.amountOut,
              actualGasUsed := receipt.gasUsed }

/-! ## DEXManager (src/services/dex/dexManager.ts) -/

/-- The partial map returned by `DEXManager.getAllQuotes`. -/
structure DexQuotesMap where
  pharaoh : Option SwapQuote
  shadow : Option SwapQuote
deriving DecidableEq

/-- `DEXManager.getAllQuotes`, parameterised by the two venues' quote calls
(as the manager holds the two service instances): each venue is queried
only when its network is targeted, each call is wrapped in its own
try/catch, and a failed call simply leaves that venue's entry absent. -/
def dexGetAllQuotes
    (pharaohQuoteFn shadowQuoteFn : Token → Token → ℤ → Except EngineErr SwapQuote)
    (tokenIn tokenOut : Token) (amountIn : ℤ) (networks : List Network) :
    DexQuotesMap :=
  { pharaoh :=
      if networks.contains .avalanche then
        (pharaohQuoteFn tokenIn tokenOut amountIn).toOption
      else none,
    shadow :=
      if networks.contains .sonic then
        (shadowQuoteFn tokenIn tokenOut amountIn).toOption
      else none }

/-! ## BridgeManager (src/services/bridge/bridgeManager.ts) -/

/-- Bridge provider tag (`'debridge' | 'ccip' | 'simulation'`). -/
inductive BridgeProvider
  | debridge
  | ccip
  | simulation
deriving DecidableEq, BEq

/-- Result of `getBestBridgeStrategy`. -/
structure BridgeStrategy where
  provider : BridgeProvider
  available : Bool
  reason : String
deriving DecidableEq

/-- Chain ids supported by DeBridge in the manager's table. -/
def supportedChainsDebridge : List ℕ := [43114, 146]

/-- Chain ids supported by CCIP in the manager's table. -/
def supportedChainsCcip : List ℕ := [43114, 146]

/-- `BridgeManager.getBestBridgeStrategy`: CCIP for USDC, DeBridge for USDT,
then provider fallbacks, then simulation when no provider supports the
chain pair. -/
def getBestBridgeStrategy (token : Token) (fromChainId toChainId : ℕ) :
    BridgeStrategy :=
  let debridgeAvailable :=
    supportedChainsDebridge.contains fromChainId &&
      supportedChainsDebridge.contains toChainId
  let ccipAvailable :=
    supportedChainsCcip.contains fromChainId && supportedChainsCcip.contains toChainId
  if token = .USDC ∧ ccipAvailable then
    { provider := .ccip, available := true,
      reason := "CCIP required for USDC per project specifications" }
  else if token = .USDT ∧ debridgeAvailable then
    { provider := .debridge, available := true,
      reason := "DeBridge optimal for USDT - cheapest viable bridge" }
  else if debridgeAvailable then
    { provider := .debridge, available := true, reason := "DeBridge fallback" }
  else if ccipAvailable then
    { provider := .ccip, available := true, reason := "CCIP fallback" }
  else
    { provider := .simulation, available := false, reason := "No bridge supports route" }

/-- What `executeSimulationBridge` returns (without the monitoring promise,
which is modelled separately by `simulateBridgeMonitoring`). -/
structure SimBridgeOut where
  provider : BridgeProvider
  txHash : ℕ
  orderId : ℕ
  estimatedOutput : ℤ
deriving DecidableEq

/-- `BridgeManager.executeSimulationBridge`: synthesizes a transaction
reference from the clock (`nowTag` stands for `Date.now()`), applies the
0.1% slippage fee `amount / 1000` (bigint division truncates toward zero,
hence `Int.tdiv`). -/
def executeSimulationBridge (token : Token) (amount : ℤ) (nowTag : ℕ) :
    SimBridgeOut :=
  let slippageFee := amount.tdiv 1000
  let _ := token
  { provider := .simulation, txHash := nowTag, orderId := nowTag,
    estimatedOutput := amount - slippageFee }

/-- The settled value of the simulation monitoring promise. -/
structure SimMonitorOut where
  delayMs : ℚ
  completed : Bool
  simulatedOutput : ℤ
deriving DecidableEq

/-- `BridgeManager.simulateBridgeMonitoring`: dwell time
`60000 + r * 120000` milliseconds where `r` is the `Math.random()` draw
(so `0 ≤ r < 1`), then resolves with `{status completed, simulatedOutput}`. -/
def simulateBridgeMonitoring (r : ℚ) (estimatedOutput : ℤ) : SimMonitorOut :=
  { delayMs := 60000 + r * 120000, completed := true,
    simulatedOutput := estimatedOutput }

/-- Data returned by a successful real-provider `executeBridge` call
(DeBridge order or CCIP message, collapsed). -/
structure RealBridgeData where
  txHash : ℕ
  orderId : ℕ
  estimatedOutput : ℤ
deriving DecidableEq

/-- Environment of one bridge step: the real provider's execution outcome,
the settled outcome of its monitoring promise, and the clock value used
by the simulation path. -/
structure BridgeEnv where
  realOutcome : Except EngineErr RealBridgeData
  monitorOutcome : Except EngineErr Unit
  nowTag : ℕ

/-- A bridge execution result as consumed by the engine: the monitoring
promise is represented by its settled outcome. -/
structure BridgeExecResultM where
  provider : BridgeProvider
  txHash : ℕ
  orderId : ℕ
  estimatedOutput : ℤ
  monitorOutcome : Except EngineErr Unit

/-- `BridgeManager.executeBridge`: simulation mode or an unavailable route
goes to the simulation bridge (whose monitoring always resolves); a real
provider attempt that throws is caught and transparently re-executed via
the simulation bridge. -/
def bridgeManagerExecuteBridge (simulationMode : Bool) (env : BridgeEnv)
    (token : Token) (fromChainId toChainId : ℕ) (amount : ℤ) :
    BridgeExecResultM :=
  let strategy := getBestBridgeStrategy token fromChainId toChainId
  let simRes :=
    let s := executeSimulationBridge token amount env.nowTag
    { provider := s.provider, txHash := s.txHash, orderId := s.orderId,
      estimatedOutput := s.estimatedOutput,
      monitorOutcome := .ok () : BridgeExecResultM }
  if strategy.provider = .simulation ∨ simulationMode then simRes
  else
    match env.realOutcome with
    | .ok d =>
      { provider := strategy.provider, txHash := d.txHash, orderId := d.orderId,
        estimatedOutput := d.estimatedOutput,
        monitorOutcome := env.monitorOutcome }
    | .error _ => simRes

/-- `BridgeManager.estimateArbitrageBridgeCosts`: both legs are costed at
the fixed DeBridge fee `10^15` wei; total `2 * 10^15`. -/
def estimateArbitrageBridgeCosts (direction : Direction) : ℤ :=
  let _ := direction
  let firstBridgeCost : ℤ := 10 ^ 15
  let secondBridgeCost : ℤ := 10 ^ 15
  firstBridgeCost + secondBridgeCost

/-! ## DeBridge monitoring loop (src/services/bridge/deBridge.ts) -/

/-- Order status enum of the provider's `GET /dln/order/{id}` endpoint. -/
inductive DeBridgeOrderStatus
  | Created
  | Fulfilled
  | SentUnlock
  | OrderCompleted
  | ClaimCompleted
  | Cancelled
deriving DecidableEq, BEq

/-- One poll of the order-status endpoint: an HTTP 200 with a status, a
non-2xx response (`statusResponse.ok` false), or a thrown fetch error. -/
inductive PollResponse
  | ok (s : DeBridgeOrderStatus)
  | httpError
  | fetchFailed
deriving DecidableEq

/-- How a `monitorBridgeTransaction` call settles. -/
inductive MonitorOutcome
  | completed (iteration : ℕ)
  | timedOut (elapsedMs : ℕ)
deriving DecidableEq, BEq

/-- The fixed DeBridge poll interval (15 seconds). -/
def pollIntervalMs : ℕ := 15000

/-- The polling loop of `monitorBridgeTransaction`.  Iteration `n` runs at
elapsed time `n * pollIntervalMs` (each earlier iteration slept once); the
loop continues while `elapsed < timeoutMs`.  A completed status returns;
the `Cancelled` throw is raised inside the loop's own `try`, so it lands in
the `catch`, which logs, sleeps and continues — exactly like a failed poll.
`fuel` bounds the recursion; `monitorBridgeTransaction` supplies enough
fuel that the `0` case is reached only once the timeout has elapsed. -/
def monitorFrom (responses : ℕ → PollResponse) (timeoutMs : ℕ) :
    ℕ → ℕ → MonitorOutcome
  | 0, n => .timedOut (n * pollIntervalMs)
  | fuel + 1, n =>
    if n * pollIntervalMs < timeoutMs then
      match responses n with
      | .ok s =>
        if s = .OrderCompleted ∨ s = .ClaimCompleted then .completed n
        else monitorFrom responses timeoutMs fuel (n + 1)
      | .httpError => monitorFrom responses timeoutMs fuel (n + 1)
      | .fetchFailed => monitorFrom responses timeoutMs fuel (n + 1)
    else .timedOut (n * pollIntervalMs)

/-- `DeBridgeService.monitorBridgeTransaction` over a poll trace: the
default timeout is `TIME_CONSTANTS.BRIDGE_TIMEOUT = 300000` ms. -/
def monitorBridgeTransaction (responses : ℕ → PollResponse) (timeoutMs : ℕ) :
    MonitorOutcome :=
  monitorFrom responses timeoutMs (timeoutMs / pollIntervalMs + 1) 0

/-! ## PriceMonitor V3 price conversion (deBridge.ts, PriceMonitor part) -/

/-- The primary `sqrtPriceX96ToPrice` computation:
`floor((sqrtPriceX96 / 2^96)^2 * 10^(decimals1 - decimals0) * 10^6)`.
The source converts to JavaScript `number` for this step; modelled in
exact `ℚ`. -/
def primaryV3Price (sqrtPriceX96 : ℕ) (decimals0 decimals1 : ℤ) : ℤ :=
  let q96 : ℚ := 2 ^ 96
  let sqrtPriceFloat : ℚ := (sqrtPriceX96 : ℚ) / q96
  let priceFloat : ℚ := sqrtPriceFloat * sqrtPriceFloat
  let decimalAdjustment : ℚ := 10 ^ (decimals1 - decimals0)
  let adjustedPriceFloat : ℚ := priceFloat * decimalAdjustment
  let finalPrice : ℚ := adjustedPriceFloat * 10 ^ (6 : ℕ)
  ⌊finalPrice⌋

/-- `PriceMonitor.alternativeV3PriceCalculation`, pure bigint math:
`priceQuot = s^2 / 2^192`; when that floors to zero the inverse
`(2^192 / s^2) * 10^6` is used instead.  In the source `s = 0` makes the
inverse division throw, caught to return `0`; here natural division by
zero is `0`, giving the same value. -/
def alternativeV3PriceCalculation (sqrtPriceX96 : ℕ) : ℤ :=
  let q192 : ℕ := 2 ^ 96 * 2 ^ 96
  let sqrtPriceSquared : ℕ := sqrtPriceX96 * sqrtPriceX96
  let priceQuot : ℕ := sqrtPriceSquared / q192
  if priceQuot = 0 then
    ((q192 / sqrtPriceSquared) * 1000000 : ℕ)
  else
    ((priceQuot * 1000000 : ℕ) : ℤ)

/-- `PriceMonitor.sqrtPriceX96ToPrice`: parity fallback for a zero input;
primary computation; the sanity band `[500000, 2000000]` triggers the
alternative computation, used when positive; otherwise the primary value
when positive; otherwise the fixed parity price `1000000`. -/
def sqrtPriceX96ToPrice (sqrtPriceX96 : ℕ) (decimals0 decimals1 : ℤ) : ℤ :=
  if sqrtPriceX96 = 0 then 1000000
  else
    let priceBigInt := primaryV3Price sqrtPriceX96 decimals0 decimals1
    if priceBigInt < 500000 ∨ priceBigInt > 2000000 then
      let alternativePrice := alternativeV3PriceCalculation sqrtPriceX96
      if alternativePrice > 0 then alternativePrice
      else if priceBigInt > 0 then priceBigInt else 1000000
    else if priceBigInt > 0 then priceBigInt else 1000000

/-! ## ArbitrageEngine (engine source file) -/

/-- DEX tag used by the manager (`'pharaoh' | 'shadow'`). -/
inductive Dex
  | pharaoh
  | shadow
deriving DecidableEq, BEq

/-- `DEXSwapResult` as reported by `DEXManager.executeSwap`. -/
structure DEXSwapResult where
  dex : Dex
  network : Network
  txHash : ℕ
  amountIn : ℤ
  amountOut : ℤ
  actualGasUsed : ℤ
  priceImpact : ℚ
deriving DecidableEq

/-- `DEXManager.executeSwap`: quote first (for the price impact), then the
venue's `executeSwapExactIn`; any failure is wrapped in a `SwapError` by
the source — the underlying error value is propagated here. -/
def dexManagerExecuteSwap (env : SwapNetEnv) (dex : Dex)
    (tokenIn tokenOut : Token) (amountIn : ℤ) : Except EngineErr DEXSwapResult :=
  match dex with
  | .pharaoh =>
    match pharaohGetSwapQuoteExactIn tokenIn tokenOut amountIn with
    | .error e => .error e
    | .ok quote =>
      match pharaohExecuteSwapExactIn env tokenIn tokenOut amountIn with
      | .error e => .error e
      | .ok r =>
        .ok { dex := .pharaoh, network := .avalanche, txHash := r.txHash,
              amountIn, amountOut := r.amountOut,
              actualGasUsed := r.actualGasUsed, priceImpact := quote.impact }
  | .shadow =>
    match shadowGetSwapQuoteExactIn tokenIn tokenOut amountIn with
    | .error e => .error e
    | .ok quote =>
      match shadowExecuteSwapExactIn env tokenIn tokenOut amountIn with
      | .error e => .error e
      | .ok r =>
        .ok { dex := .shadow, network := .sonic, txHash := r.txHash,
              amountIn, amountOut := r.amountOut,
              actualGasUsed := r.actualGasUsed, priceImpact := quote.impact }

/-- `String.includes` of JavaScript. -/
def includesStr (s pat : String) : Bool :=
  (s.splitOn pat).length != 1

/-- `ArbitrageEngine.executeSwapStep`: the venue follows the step's network
(Pharaoh on Avalanche, Shadow on Sonic) and the token pair follows the
direction and leg. -/
def executeSwapStep (env : SwapNetEnv) (step : ExecutionStep)
    (opp : ArbitrageOpportunity) (amount : ℤ) : Except EngineErr DEXSwapResult :=
  let isAvalanche := step.network = .avalanche
  let dex := if isAvalanche then Dex.pharaoh else Dex.shadow
  if opp.direction = .avalancheToSonic then
    if isAvalanche then dexManagerExecuteSwap env dex .USDC .USDT amount
    else dexManagerExecuteSwap env dex .USDT .USDC amount
  else
    if isAvalanche then dexManagerExecuteSwap env dex .USDT .USDC amount
    else dexManagerExecuteSwap env dex .USDC .USDT amount

/-- `ArbitrageEngine.executeBridgeStep`: chain ids from the step's network,
token read from the step description (`includes('USDT')`). -/
def executeBridgeStep (simulationMode : Bool) (env : BridgeEnv)
    (step : ExecutionStep) (amount : ℤ) : BridgeExecResultM :=
  let fromChainId : ℕ := if step.network = .avalanche then 43114 else 146
  let toChainId : ℕ := if step.network = .avalanche then 146 else 43114
  let token := if includesStr step.description "USDT" then Token.USDT else Token.USDC
  bridgeManagerExecuteBridge simulationMode env token fromChainId toChainId amount

/-- The six steps pushed for direction avalanche-to-sonic. -/
def stepsAvalancheToSonic : List ExecutionStep :=
  [⟨.swap, .avalanche, "Swap USDC → USDT on Pharaoh", .pending, none, none⟩,
   ⟨.bridge, .avalanche, "Bridge USDT from Avalanche to Sonic via DeBridge", .pending, none, none⟩,
   ⟨.wait, .sonic, "Wait for USDT bridge completion on Sonic", .pending, none, none⟩,
   ⟨.swap, .sonic, "Swap USDT → USDC on Shadow", .pending, none, none⟩,
   ⟨.bridge, .sonic, "Bridge USDC from Sonic to Avalanche via DeBridge", .pending, none, none⟩,
   ⟨.wait, .avalanche, "Wait for USDC bridge completion on Avalanche", .pending, none, none⟩]

/-- The six steps pushed for direction sonic-to-avalanche. -/
def stepsSonicToAvalanche : List ExecutionStep :=
  [⟨.bridge, .avalanche, "Bridge USDC from Avalanche to Sonic via DeBridge", .pending, none, none⟩,
   ⟨.wait, .sonic, "Wait for USDC bridge completion on Sonic", .pending, none, none⟩,
   ⟨.swap, .sonic, "Swap USDC → USDT on Shadow", .pending, none, none⟩,
   ⟨.bridge, .sonic, "Bridge USDT from Sonic to Avalanche via DeBridge", .pending, none, none⟩,
   ⟨.wait, .avalanche, "Wait for USDT bridge completion on Avalanche", .pending, none, none⟩,
   ⟨.swap, .avalanche, "Swap USDT → USDC on Pharaoh", .pending, none, none⟩]

/-- `ArbitrageEngine.createExecutionPlan`: the fixed six-step sequence for
the direction, bridge costs from the manager's estimate, gas from the
opportunity, 360 s estimated duration. -/
def createExecutionPlan (opportunity : ArbitrageOpportunity) : ExecutionPlan :=
  let steps :=
    if opportunity.direction = .avalancheToSonic then stepsAvalancheToSonic
    else stepsSonicToAvalanche
  { steps,
    totalGasCost := opportunity.estimatedGasCost,
    totalBridgeCost := estimateArbitrageBridgeCosts opportunity.direction,
    estimatedDuration := 360,
    expectedProfit := opportunity.netProfit }

/-- `ArbitrageEngine.validateOpportunity`: re-quote both venues for
USDC→USDT at the opportunity's amount (both venue quote calls are local
deterministic computations), fail when either quote is absent, then abort
when the current price difference has fallen below half of the original. -/
def validateOpportunity (opp : ArbitrageOpportunity) : Except EngineErr Unit :=
  let currentQuotes :=
    dexGetAllQuotes pharaohGetSwapQuoteExactIn shadowGetSwapQuoteExactIn
      .USDC .USDT opp.amount [.avalanche, .sonic]
  match currentQuotes.pharaoh, currentQuotes.shadow with
  | some pq, some sq =>
    let currentPriceDiff := calculatePriceDifference pq.amountOut sq.amountOut 6
    let originalPriceDiff :=
      calculatePriceDifference opp.buyPoolPrice opp.sellPoolPrice 6
    if currentPriceDiff < originalPriceDiff * (1 / 2) then
      .error (.arb "Price difference has decreased significantly" .priceMovedAgainstUs)
    else .ok ()
  | _, _ => .error (.arb "Current quotes not available" .quotesUnavailable)

/-- The network-effect environment of one execution: per step index, the
swap transaction environment and the bridge environment. -/
structure ExecEnv where
  swapTx : ℕ → SwapNetEnv
  bridge : ℕ → BridgeEnv

/-- The loop body of `ArbitrageEngine.executePlan`, recursing over the
remaining steps.  Arguments after the plan: remaining steps, step index,
processed steps (with their final statuses, for the result's plan),
completed-step copies, transaction hashes, accumulated gas cost (each swap's
gas priced at 20 Gwei), current amount.  `totalBridgeCost` is the source's
`actualBridgeCost`, declared `const BigInt(0)` and never updated. -/
def executePlanGo (simulationMode : Bool) (env : ExecEnv)
    (opp : ArbitrageOpportunity) (plan : ExecutionPlan) :
    List ExecutionStep → ℕ → List ExecutionStep → List ExecutionStep →
    List ℕ → ℤ → ℤ → ArbitrageExecutionResult
  | [], _, processed, completedSteps, transactions, actualGasCost, currentAmount =>
    { opportunityId := opp.id, success := true,
      executionPlan := { plan with steps := processed },
      completedSteps,
      netProfit := currentAmount - opp.amount - actualGasCost,
      totalGasCost := actualGasCost, totalBridgeCost := 0,
      transactions }
  | step :: rest, i, processed, completedSteps, transactions, actualGasCost,
    currentAmount =>
    match step.type with
    | .swap =>
      match executeSwapStep (env.swapTx i) step opp currentAmount with
      | .ok swapResult =>
        let stepC := { step with
                       status := .completed,
                       txHash := some swapResult.txHash,
                       actualGas := some swapResult.actualGasUsed }
        executePlanGo simulationMode env opp plan rest (i + 1)
          (processed ++ [stepC]) (completedSteps ++ [stepC])
          (transactions ++ [swapResult.txHash])
          (actualGasCost + swapResult.actualGasUsed * 20000000000)
          swapResult.amountOut
      | .error stepError =>
        let stepF := { step with status := .failed }
        { opportunityId := opp.id, success := false,
          executionPlan := { plan with steps := processed ++ [stepF] ++ rest },
          completedSteps, failedStep := some stepF, netProfit := 0,
          totalGasCost := actualGasCost, totalBridgeCost := 0,
          transactions, error := some stepError }
    | .bridge =>
      -- submission cannot throw (the manager falls back to simulation);
      -- the transaction hash and output are recorded, then monitoring is
      -- awaited and only its failure fails the step
      let bridgeResult := executeBridgeStep simulationMode (env.bridge i) step
        currentAmount
      let step1 := { step with txHash := some bridgeResult.txHash }
      match bridgeResult.monitorOutcome with
      | .ok _ =>
        let stepC := { step1 with status := .completed }
        executePlanGo simulationMode env opp plan rest (i + 1)
          (processed ++ [stepC]) (completedSteps ++ [stepC])
          (transactions ++ [bridgeResult.txHash]) actualGasCost
          bridgeResult.estimatedOutput
      | .error stepError =>
        let stepF := { step1 with status := .failed }
        { opportunityId := opp.id, success := false,
          executionPlan := { plan with steps := processed ++ [stepF] ++ rest },
          completedSteps, failedStep := some stepF, netProfit := 0,
          totalGasCost := actualGasCost, totalBridgeCost := 0,
          transactions := transactions ++ [bridgeResult.txHash],
          error := some stepError }
    | .wait =>
      -- a fixed one-second settlement pause; always succeeds
      let stepC := { step with status := .completed }
      executePlanGo simulationMode env opp plan rest (i + 1)
        (processed ++ [stepC]) (completedSteps ++ [stepC]) transactions
        actualGasCost currentAmount

/-- `ArbitrageEngine.executePlan`. -/
def executePlan (simulationMode : Bool) (env : ExecEnv) (plan : ExecutionPlan)
    (opp : ArbitrageOpportunity) : ArbitrageExecutionResult :=
  executePlanGo simulationMode env opp plan plan.steps 0 [] [] [] 0 opp.amount

/-- The engine's mutable state: the in-progress flag and the append-only
execution history. -/
structure EngineState where
  isExecuting : Bool
  executionHistory : List ArbitrageExecutionResult
deriving DecidableEq

/-- `ArbitrageEngine.executeArbitrage`.  A request while `isExecuting` throws
the admission error before anything else.  Otherwise the flag is set, the
plan is built, the opportunity re-validated — a validation throw is caught
by the catch block, which rebuilds the plan, appends a failure result and
returns it — or the plan is executed and its result appended; the `finally`
clause clears the flag on every path. -/
def executeArbitrage (simulationMode : Bool) (st : EngineState) (env : ExecEnv)
    (opp : ArbitrageOpportunity) :
    EngineState × Except EngineErr ArbitrageExecutionResult :=
  if st.isExecuting then
    (st, .error (.arb "Arbitrage execution already in progress" .executionInProgress))
  else
    let executionPlan := createExecutionPlan opp
    match validateOpportunity opp with
    | .error e =>
      let result : ArbitrageExecutionResult :=
        { opportunityId := opp.id, success := false,
          executionPlan := createExecutionPlan opp,
          completedSteps := [], netProfit := 0, totalGasCost := 0,
          totalBridgeCost := 0, transactions := [], error := some e }
      ({ isExecuting := false,
         executionHistory := st.executionHistory ++ [result] }, .ok result)
    | .ok _ =>
      let result := executePlan simulationMode env executionPlan opp
      ({ isExecuting := false,
         executionHistory := st.executionHistory ++ [result] }, .ok result)

/-! ## Theorems -/

/-- Helper: `Int.tdiv` (bigint division, truncating toward zero) agrees with
Lean's floor division on non-negative numerators. -/
theorem tdiv_eq_div_of_nonneg (a b : ℤ) (ha : 0 ≤ a) (hb : 0 ≤ b) :
    a.tdiv b = a / b := by
  obtain ⟨m, rfl⟩ := Int.eq_ofNat_of_zero_le ha
  obtain ⟨n, rfl⟩ := Int.eq_ofNat_of_zero_le hb
  rfl

/-- C6: for non-negative inputs, `calculateNetProfit` equals
`max 0 (gross - (gas + bridge + slippage))`, hence is never negative; in
particular gross 100 against total costs 150 yields 0 and gross 150 against
total costs 100 yields 50. -/
theorem calculateNetProfit_max_zero (gross gas bridge slip : ℤ)
    (_hg : 0 ≤ gross) (_h1 : 0 ≤ gas) (_h2 : 0 ≤ bridge) (_h3 : 0 ≤ slip) :
    calculateNetProfit gross gas bridge slip =
        max 0 (gross - (gas + bridge + slip)) ∧
      0 ≤ calculateNetProfit gross gas bridge slip ∧
      calculateNetProfit 100 150 0 0 = 0 ∧
      calculateNetProfit 150 100 0 0 = 50 := by
  refine ⟨?_, ?_, by decide, by decide⟩ <;>
    · simp only [calculateNetProfit]
      split_ifs <;> omega

/-- C6 witness at gross 100, costs 150. -/
theorem calculateNetProfit_max_zero_witness :
    calculateNetProfit 100 150 0 0 = max 0 (100 - (150 + 0 + 0)) ∧
      0 ≤ calculateNetProfit 100 150 0 0 ∧
      calculateNetProfit 100 150 0 0 = 0 ∧
      calculateNetProfit 150 100 0 0 = 50 :=
  calculateNetProfit_max_zero 100 150 0 0 (by decide) (by decide) (by decide)
    (by decide)

/-- C8: when both networks are targeted and exactly one venue's quote call
fails, `getAllQuotes` returns the partial map holding exactly the
successful venue's quote (and never propagates the failure). -/
theorem dexGetAllQuotes_partial_on_single_failure (e : EngineErr)
    (q : SwapQuote) (tokenIn tokenOut : Token) (amountIn : ℤ) :
    dexGetAllQuotes (fun _ _ _ => .error e) (fun _ _ _ => .ok q)
        tokenIn tokenOut amountIn [.avalanche, .sonic] = ⟨none, some q⟩ ∧
      dexGetAllQuotes (fun _ _ _ => .ok q) (fun _ _ _ => .error e)
        tokenIn tokenOut amountIn [.avalanche, .sonic] = ⟨some q, none⟩ :=
  ⟨rfl, rfl⟩

/-- C10: a successful swap execution reports the venue's deterministic
pre-submission quote `floor(amountIn * (1 - feeRate))` (fee 0.0005 on
Pharaoh, 0.0008 on Shadow) as `amountOut` — regardless of the output the
transaction produced on chain (`rc.onChainAmountOut` is arbitrary) — and
takes only `actualGasUsed` from the receipt. -/
theorem executeSwapExactIn_reports_quote_output (envS : SwapNetEnv)
    (rc : TxReceipt) (tokenIn tokenOut : Token) (amountIn : ℤ)
    (hne : tokenIn ≠ tokenOut) (happ : envS.approval = .ok ())
    (htx : envS.tx = .ok rc) :
    pharaohExecuteSwapExactIn envS tokenIn tokenOut amountIn =
        .ok ⟨rc.txHash, ⌊(amountIn : ℚ) * (1 - 5 / 10000)⌋, rc.gasUsed⟩ ∧
      shadowExecuteSwapExactIn envS tokenIn tokenOut amountIn =
        .ok ⟨rc.txHash, ⌊(amountIn : ℚ) * (1 - 8 / 10000)⌋, rc.gasUsed⟩ := by
  constructor <;>
    simp [pharaohExecuteSwapExactIn, shadowExecuteSwapExactIn,
      pharaohGetSwapQuoteExactIn, shadowGetSwapQuoteExactIn,
      pharaohQuoteAmountOut, shadowQuoteAmountOut, happ, htx, hne]

/-- C10 witness: USDC→USDT of 1000000 units with a receipt reporting
gas 123 and an on-chain output of 555 (ignored by the code). -/
theorem executeSwapExactIn_reports_quote_output_witness :
    pharaohExecuteSwapExactIn ⟨.ok (), .ok ⟨7, 123, 555⟩⟩ .USDC .USDT 1000000 =
        .ok ⟨7, ⌊(1000000 : ℚ) * (1 - 5 / 10000)⌋, 123⟩ ∧
      shadowExecuteSwapExactIn ⟨.ok (), .ok ⟨7, 123, 555⟩⟩ .USDC .USDT 1000000 =
        .ok ⟨7, ⌊(1000000 : ℚ) * (1 - 8 / 10000)⌋, 123⟩ :=
  executeSwapExactIn_reports_quote_output ⟨.ok (), .ok ⟨7, 123, 555⟩⟩
    ⟨7, 123, 555⟩ .USDC .USDT 1000000 (by decide) rfl rfl

/-- C7: the simulation bridge outputs exactly `amount - amount / 1000`
(0.1% slippage, bigint integer arithmetic), and its monitoring completes
successfully with that output after a dwell time of
`60000 + r * 120000` ms, which lies in the 60–180 second window for every
random draw `0 ≤ r < 1`. -/
theorem executeSimulationBridge_output_and_delay (token : Token) (amount : ℤ)
    (nowTag : ℕ) (r : ℚ) (ha : 0 ≤ amount) (hr0 : 0 ≤ r) (hr1 : r < 1) :
    (executeSimulationBridge token amount nowTag).estimatedOutput =
        amount - amount / 1000 ∧
      (simulateBridgeMonitoring r
          (executeSimulationBridge token amount nowTag).estimatedOutput).completed =
        true ∧
      (simulateBridgeMonitoring r
          (executeSimulationBridge token amount nowTag).estimatedOutput).simulatedOutput =
        amount - amount / 1000 ∧
      60000 ≤ (simulateBridgeMonitoring r
          (executeSimulationBridge token amount nowTag).estimatedOutput).delayMs ∧
      (simulateBridgeMonitoring r
          (executeSimulationBridge token amount nowTag).estimatedOutput).delayMs <
        180000 := by
  have hout : (executeSimulationBridge token amount nowTag).estimatedOutput =
      amount - amount / 1000 := by
    simp only [executeSimulationBridge]
    rw [tdiv_eq_div_of_nonneg amount 1000 ha (by norm_num)]
  have hmul0 : (0 : ℚ) ≤ r * 120000 := mul_nonneg hr0 (by norm_num)
  have hmul1 : r * 120000 < 1 * 120000 :=
    mul_lt_mul_of_pos_right hr1 (by norm_num)
  refine ⟨hout, rfl, hout, ?_, ?_⟩ <;>
    · simp only [simulateBridgeMonitoring]
      linarith

/-- C7 witness at amount 1234567 and random draw 1/3. -/
theorem executeSimulationBridge_output_and_delay_witness :
    (executeSimulationBridge .USDT 1234567 9).estimatedOutput =
        1234567 - 1234567 / 1000 ∧
      (simulateBridgeMonitoring (1 / 3)
          (executeSimulationBridge .USDT 1234567 9).estimatedOutput).completed =
        true ∧
      (simulateBridgeMonitoring (1 / 3)
          (executeSimulationBridge .USDT 1234567 9).estimatedOutput).simulatedOutput =
        1234567 - 1234567 / 1000 ∧
      60000 ≤ (simulateBridgeMonitoring (1 / 3)
          (executeSimulationBridge .USDT 1234567 9).estimatedOutput).delayMs ∧
      (simulateBridgeMonitoring (1 / 3)
          (executeSimulationBridge .USDT 1234567 9).estimatedOutput).delayMs <
        180000 :=
  executeSimulationBridge_output_and_delay .USDT 1234567 9 (1 / 3) (by decide)
    (by norm_num) (by norm_num)

/-- C4 (bug evidence): with the default 300000 ms timeout, a poll trace that
always reports `Cancelled` does not fail fatally at the first poll — the
`throw` lands in the loop's own catch, the loop keeps polling, and the call
ends with the monitoring-timeout error after the full 300000 ms; a trace
reporting `OrderCompleted` resolves successfully at the first poll. -/
theorem monitorBridgeTransaction_cancelled_times_out :
    monitorBridgeTransaction (fun _ => .ok .Cancelled) 300000 =
        .timedOut 300000 ∧
      monitorBridgeTransaction (fun _ => .ok .OrderCompleted) 300000 =
        .completed 0 ∧
      monitorBridgeTransaction (fun _ => .ok .ClaimCompleted) 300000 =
        .completed 0 :=
  ⟨rfl, rfl, rfl⟩

/-- C9: the V3 price conversion never fails and always yields a positive
price; when the primary result leaves the stable-pair sanity band
`[500000, 2000000]` the alternative integer computation is used whenever it
is positive (falling back to the positive primary value, then parity); and
whenever both the primary and the alternative computations yield zero the
result is exactly the parity price 1000000. -/
theorem sqrtPriceX96ToPrice_positive_band_parity (s : ℕ) :
    0 < sqrtPriceX96ToPrice s 6 6 ∧
      (primaryV3Price s 6 6 = 0 → alternativeV3PriceCalculation s = 0 →
        sqrtPriceX96ToPrice s 6 6 = 1000000) ∧
      (s ≠ 0 →
        (primaryV3Price s 6 6 < 500000 ∨ primaryV3Price s 6 6 > 2000000) →
        sqrtPriceX96ToPrice s 6 6 =
          (if alternativeV3PriceCalculation s > 0 then
            alternativeV3PriceCalculation s
           else if primaryV3Price s 6 6 > 0 then primaryV3Price s 6 6
           else 1000000)) := by
  by_cases h0 : s = 0
  · subst h0
    have halt : alternativeV3PriceCalculation 0 = 0 := rfl
    refine ⟨by norm_num [sqrtPriceX96ToPrice], fun _ _ => by
      norm_num [sqrtPriceX96ToPrice], fun h _ => absurd rfl h⟩
  · refine ⟨?_, ?_, ?_⟩
    · simp only [sqrtPriceX96ToPrice, if_neg h0]
      split_ifs <;> omega
    · intro hp halt
      simp only [sqrtPriceX96ToPrice, if_neg h0, hp, halt]
      norm_num
    · intro _ hband
      simp only [sqrtPriceX96ToPrice, if_neg h0, if_pos hband]

/-- C9 witness: `s = 0` has both computations zero and the conversion
returns parity; `s = 2^96` is a positive, in-band conversion. -/
theorem sqrtPriceX96ToPrice_positive_band_parity_witness :
    sqrtPriceX96ToPrice 0 6 6 = 1000000 ∧ 0 < sqrtPriceX96ToPrice (2 ^ 96) 6 6 :=
  ⟨(sqrtPriceX96ToPrice_positive_band_parity 0).2.1 (by norm_num [primaryV3Price])
      rfl,
    (sqrtPriceX96ToPrice_positive_band_parity (2 ^ 96)).1⟩

/-- C5: every execution plan has exactly six steps, all created pending,
with kinds swap, bridge, wait, swap, bridge, wait for avalanche-to-sonic
and bridge, wait, swap, bridge, wait, swap for sonic-to-avalanche. -/
theorem createExecutionPlan_six_steps_order (opp : ArbitrageOpportunity) :
    (createExecutionPlan opp).steps.length = 6 ∧
      (createExecutionPlan opp).steps.map (fun s => s.type) =
        (if opp.direction = .avalancheToSonic then
          [.swap, .bridge, .wait, .swap, .bridge, .wait]
         else [.bridge, .wait, .swap, .bridge, .wait, .swap]) ∧
      (createExecutionPlan opp).steps.map (fun s => s.status) =
        List.replicate 6 .pending := by
  rcases hd : opp.direction <;>
    simp [createExecutionPlan, stepsAvalancheToSonic, stepsSonicToAvalanche, hd,
      List.replicate]

/-- C1: a call while an execution is in progress returns immediately with
the `EXECUTION_IN_PROGRESS` `ArbitrageError` and leaves the engine state —
flag and history — exactly as it was; no plan is built and no step runs. -/
theorem executeArbitrage_rejects_when_in_progress (simMode : Bool)
    (st : EngineState) (envE : ExecEnv) (opp : ArbitrageOpportunity)
    (h : st.isExecuting = true) :
    executeArbitrage simMode st envE opp =
      (st, .error (.arb "Arbitrage execution already in progress"
        .executionInProgress)) := by
  simp [executeArbitrage, h]

/-- C1 witness: a busy engine with one prior result in its history. -/
theorem executeArbitrage_rejects_when_in_progress_witness :
    executeArbitrage true
        ⟨true, []⟩
        ⟨fun _ => ⟨.ok (), .ok ⟨1, 100, 0⟩⟩, fun _ => ⟨.ok ⟨2, 3, 0⟩, .ok (), 5⟩⟩
        ⟨0, .avalancheToSonic, 1000000, 1000000, 1010000, 0, 0, 0⟩ =
      (⟨true, []⟩, .error (.arb "Arbitrage execution already in progress"
        .executionInProgress)) :=
  executeArbitrage_rejects_when_in_progress true ⟨true, []⟩
    ⟨fun _ => ⟨.ok (), .ok ⟨1, 100, 0⟩⟩, fun _ => ⟨.ok ⟨2, 3, 0⟩, .ok (), 5⟩⟩
    ⟨0, .avalancheToSonic, 1000000, 1000000, 1010000, 0, 0, 0⟩ rfl

/-- C2: every admitted call — for any network-effect environment, hence on
the successful path, the structured step-failure path and the caught
internal-error path alike — returns with the in-progress flag cleared and
exactly one result appended to the execution history (namely the returned
one). -/
theorem executeArbitrage_releases_flag_and_appends_once (simMode : Bool)
    (st : EngineState) (envE : ExecEnv) (opp : ArbitrageOpportunity)
    (h : st.isExecuting = false) :
    ∃ result, (executeArbitrage simMode st envE opp).2 = .ok result ∧
      (executeArbitrage simMode st envE opp).1 =
        ⟨false, st.executionHistory ++ [result]⟩ := by
  simp only [executeArbitrage, h, Bool.false_eq_true, if_false]
  cases validateOpportunity opp with
  | error e => exact ⟨_, rfl, rfl⟩
  | ok u => exact ⟨_, rfl, rfl⟩

/-- C2 witness: an idle engine executing one profitable opportunity under an
all-successful environment. -/
theorem executeArbitrage_releases_flag_and_appends_once_witness :
    ∃ result,
      (executeArbitrage true ⟨false, []⟩
          ⟨fun _ => ⟨.ok (), .ok ⟨1, 100, 0⟩⟩, fun _ => ⟨.ok ⟨2, 3, 0⟩, .ok (), 5⟩⟩
          ⟨0, .avalancheToSonic, 1000000, 1000000, 1010000, 0, 0, 0⟩).2 =
        .ok result ∧
      (executeArbitrage true ⟨false, []⟩
          ⟨fun _ => ⟨.ok (), .ok ⟨1, 100, 0⟩⟩, fun _ => ⟨.ok ⟨2, 3, 0⟩, .ok (), 5⟩⟩
          ⟨0, .avalancheToSonic, 1000000, 1000000, 1010000, 0, 0, 0⟩).1 =
        ⟨false, [] ++ [result]⟩ :=
  executeArbitrage_releases_flag_and_appends_once true ⟨false, []⟩
    ⟨fun _ => ⟨.ok (), .ok ⟨1, 100, 0⟩⟩, fun _ => ⟨.ok ⟨2, 3, 0⟩, .ok (), 5⟩⟩
    ⟨0, .avalancheToSonic, 1000000, 1000000, 1010000, 0, 0, 0⟩ rfl

/-- An opportunity whose freshly re-quoted price difference is exactly half
the originally observed one: amount 1000000 re-quotes to venue outputs
999500 and 999200 (difference 3/9992), and the original pool prices 4996
and 4999 give difference 3/4996. -/
def oppHalfBoundary : ArbitrageOpportunity :=
  ⟨0, .avalancheToSonic, 1000000, 4996, 4999, 0, 0, 0⟩

/-- An all-successful network environment. -/
def envAllOk : ExecEnv :=
  ⟨fun _ => ⟨.ok (), .ok ⟨1, 100, 0⟩⟩, fun _ => ⟨.ok ⟨2, 3, 0⟩, .ok (), 5⟩⟩

/-- C3 counterexample: at `oppHalfBoundary` the current price difference
equals exactly half of the original one (so the claim requires an abort
with `PRICE_MOVED_AGAINST_US` before any step), yet re-validation passes —
the code aborts only on a strict `<` comparison — and the execution runs
all six plan steps to a successful result with no error. -/
theorem validateOpportunity_half_boundary_cex :
    calculatePriceDifference (pharaohQuoteAmountOut 1000000)
        (shadowQuoteAmountOut 1000000) 6 =
      calculatePriceDifference oppHalfBoundary.buyPoolPrice
        oppHalfBoundary.sellPoolPrice 6 * (1 / 2) ∧
    validateOpportunity oppHalfBoundary = .ok () ∧
    (executeArbitrage true ⟨false, []⟩ envAllOk oppHalfBoundary).2.toOption.map
        (fun r => (r.error, r.completedSteps.length, r.success)) =
      some (none, 6, true) :=
  ⟨by with_unfolding_all rfl, by with_unfolding_all rfl, by with_unfolding_all rfl⟩

/-- C3 amended: re-validation aborts — before any step runs, with the
`PRICE_MOVED_AGAINST_US` error reported in the failure result — exactly
when the freshly re-quoted price difference is strictly less than half of
the originally observed one (at exactly half, execution proceeds, as the
counterexample shows). -/
theorem executeArbitrage_aborts_when_diff_below_half (simMode : Bool)
    (st : EngineState) (envE : ExecEnv) (opp : ArbitrageOpportunity)
    (hidle : st.isExecuting = false)
    (hlt : calculatePriceDifference (pharaohQuoteAmountOut opp.amount)
        (shadowQuoteAmountOut opp.amount) 6 <
      calculatePriceDifference opp.buyPoolPrice opp.sellPoolPrice 6 * (1 / 2)) :
    ∃ result, (executeArbitrage simMode st envE opp).2 = .ok result ∧
      result.error = some (.arb "Price difference has decreased significantly"
        .priceMovedAgainstUs) ∧
      result.success = false ∧
      result.completedSteps = [] ∧ result.transactions = [] := by
  have hq : dexGetAllQuotes pharaohGetSwapQuoteExactIn shadowGetSwapQuoteExactIn
      .USDC .USDT opp.amount [.avalanche, .sonic] =
      ⟨some ⟨opp.amount, pharaohQuoteAmountOut opp.amount,
          calculatePriceImpact opp.amount (pharaohQuoteAmountOut opp.amount),
          872000, .avalanche⟩,
        some ⟨opp.amount, shadowQuoteAmountOut opp.amount,
          calculatePriceImpact opp.amount (shadowQuoteAmountOut opp.amount),
          85000, .sonic⟩⟩ := rfl
  have hv : validateOpportunity opp =
      .error (.arb "Price difference has decreased significantly"
        .priceMovedAgainstUs) := by
    simp only [validateOpportunity, hq]
    rw [if_pos hlt]
  simp only [executeArbitrage, hidle, Bool.false_eq_true, if_false, hv]
  exact ⟨_, rfl, rfl, rfl, rfl, rfl⟩

/-- C3 amended witness: original prices 1000000 and 1010000 (difference 1%),
current difference 3/9992 ≈ 0.03% — strictly below half, so the run aborts
with the price-moved error and empty step/transaction lists. -/
theorem executeArbitrage_aborts_when_diff_below_half_witness :
    ∃ result,
      (executeArbitrage true ⟨false, []⟩ envAllOk
          ⟨1, .avalancheToSonic, 1000000, 1000000, 1010000, 0, 0, 0⟩).2 =
        .ok result ∧
      result.error = some (.arb "Price difference has decreased significantly"
        .priceMovedAgainstUs) ∧
      result.success = false ∧
      result.completedSteps = [] ∧ result.transactions = [] :=
  executeArbitrage_aborts_when_diff_below_half true ⟨false, []⟩ envAllOk
    ⟨1, .avalancheToSonic, 1000000, 1000000, 1010000, 0, 0, 0⟩ rfl
    (by with_unfolding_all decide)
